import Mathlib

/-!
Verification of the repository layer of a minimal contact persistence
service (src/src/repository.rs), shallowly embedded in Lean.

The Rust code owns a live Postgres connection; here each operation is
embedded as a pure function over the driver response it would receive
(the value of the awaited `query` / `execute` / `connect` call).  A
result wrapped in `Option` distinguishes a normal return (`some`) from a
process abort such as an `unwrap` or out-of-bounds indexing panic
(`none`).  The backing store itself is external to the repository; its
select/insert semantics are modelled from the specification where a
claim quantifies over live tables.
-/

namespace ContactRepo

/-- Embeds `struct Contact`: five public fields.  `id` is an `i32` on
which no arithmetic is performed, so it is modelled as `Int`; the other
four fields are text. -/
structure Contact where
  id : Int
  firstname : String
  lastname : String
  phone : String
  email : String
deriving DecidableEq

/-- Embeds the driver-level error type `tokio_postgres::Error` (external
to the repository), carrying only a diagnostic message. -/
structure PgError where
  msg : String
deriving DecidableEq

/-- Embeds `enum Error { Db(PgError), Intern(String) }`: the single
error type of the repository, with the driver variant `Db` and the
internal string-carrying variant `Intern`. -/
inductive Error where
  | Db : PgError → Error
  | Intern : String → Error
deriving DecidableEq

/-- Embeds `impl From<PgError> for Error`: `Error::Db(err)`. -/
def errorFromPgError (err : PgError) : Error := Error.Db err

/-- Embeds `impl From<String> for Error`: `Error::Intern(err)`. -/
def errorFromString (err : String) : Error := Error.Intern err

/-- Embeds one row of the result set of the select issued by `get`: the
projection `SELECT id, firstname, lastname, phone, email` yields five
columns in that fixed order, `col0` the integer column and `col1` to
`col4` the four text columns. -/
structure Row where
  col0 : Int
  col1 : String
  col2 : String
  col3 : String
  col4 : String
deriving DecidableEq

/-- Embeds `PgsqlRepository::get` over the driver response `queryResult`
(the value of `self.client.query(..).await`): a driver error is
propagated by `?` through `From<PgError>`; on zero rows the `Intern`
variant with the formatted message is returned; otherwise `rows[0]` is
read and its columns are mapped positionally into a `Contact`.  `none`
models a process abort (an out-of-bounds `rows[0]`), `some` a normal
return. -/
def get (id : Int) (queryResult : Except PgError (List Row)) :
    Option (Except Error Contact) :=
  match queryResult with
  | Except.error e => some (Except.error (errorFromPgError e))
  | Except.ok rows =>
    if rows.length = 0 then
      some (Except.error (Error.Intern ("no record with id " ++ toString id)))
    else
      match rows[0]? with
      | none => none
      | some r => some (Except.ok ⟨r.col0, r.col1, r.col2, r.col3, r.col4⟩)

/-- Embeds `PgsqlRepository::save` over the driver response `execResult`
(the value of `self.client.execute(..).await`, the affected-row count,
a `u64` modelled as `Nat`): a driver error is propagated by `?` through
`From<PgError>`, a success wraps the count unchanged in `Ok`.  The body
has no abort site, so the `Option` layer (kept for uniformity with
`get`) is `some` by construction. -/
def save (contact : Contact) (execResult : Except PgError Nat) :
    Option (Except Error Nat) :=
  match execResult with
  | Except.error e => some (Except.error (errorFromPgError e))
  | Except.ok n => some (Except.ok n)

/-- Embeds the connection handle `tokio_postgres::Client`, opaque to the
repository beyond being stored. -/
structure Client where
  dsn : String
deriving DecidableEq

/-- Embeds `struct PgsqlRepository { client: Client }`. -/
structure PgsqlRepository where
  client : Client
deriving DecidableEq

/-- Embeds `PgsqlRepository::new` over the result of
`tokio_postgres::connect(dsn, NoTls).await`: `.unwrap()` aborts the
process on a connection error (`none`); on success the repository owns
the client.  The spawned background task only drives protocol I/O and
logs connection errors; it produces no value and is not modelled. -/
def PgsqlRepository.new (connectResult : Except PgError Client) :
    Option PgsqlRepository :=
  match connectResult with
  | Except.error _ => none
  | Except.ok client => some ⟨client⟩

/-- Modelled from the spec: the store evaluates the parameterized
`SELECT id, firstname, lastname, phone, email FROM contact WHERE id=$1`
on a table (a list of stored contact rows) by returning every row whose
id matches, projected in the fixed five-column order. -/
def selectById (table : List Contact) (id : Int) : List Row :=
  (table.filter (fun c => c.id == id)).map
    (fun c => ⟨c.id, c.firstname, c.lastname, c.phone, c.email⟩)

/-- Modelled from the spec: the store evaluates the parameterized
`INSERT INTO contact (id, firstname, lastname, phone, email) VALUES
($1, $2, $3, $4, $5)`; `id` is the primary key, so a duplicate id makes
the statement fail with a driver-level constraint violation leaving the
table unchanged, and otherwise the row is stored and the store reports
exactly 1 affected row. -/
def insertContact (table : List Contact) (c : Contact) :
    Except PgError (List Contact × Nat) :=
  if table.any (fun x => x.id == c.id) then
    Except.error ⟨"duplicate key value violates unique constraint contact_pkey"⟩
  else
    Except.ok (table ++ [c], 1)

/-- Runs `get` against a live table: the driver succeeds and hands the
select's result set to the repository code. -/
def getDb (table : List Contact) (id : Int) : Option (Except Error Contact) :=
  get id (Except.ok (selectById table id))

/-- Runs `save` against a live table: the table after the call, paired
with the call's result. -/
def saveDb (table : List Contact) (c : Contact) :
    List Contact × Option (Except Error Nat) :=
  match insertContact table c with
  | Except.error e => (table, save c (Except.error e))
  | Except.ok (t2, n) => (t2, save c (Except.ok n))

end ContactRepo

namespace ContactRepo

/-- C1: for every id whose select returns zero rows, `get` returns the
internal string-carrying `Intern` (NotFoundError) variant whose message
identifies the missing id; in particular `get 12` against the empty
table yields an error carrying "no record with id 12". -/
theorem get_zero_rows_not_found (id : Int) (rows : List Row)
    (h : rows.length = 0) :
    get id (Except.ok rows) =
      some (Except.error (Error.Intern ("no record with id " ++ toString id))) ∧
    getDb [] 12 = some (Except.error (Error.Intern "no record with id 12")) := by
  constructor
  · simp [get, h]
  · rfl

/-- Witness for C1 at id 12 and the empty result set. -/
theorem get_zero_rows_not_found_witness :
    get 12 (Except.ok []) =
      some (Except.error (Error.Intern ("no record with id " ++ toString (12 : Int)))) ∧
    getDb [] 12 = some (Except.error (Error.Intern "no record with id 12")) :=
  get_zero_rows_not_found 12 [] rfl

/-- C3: for every non-empty result set, `get` maps the first row
positionally into the Entity (column 0 to id, 1 to firstname, 2 to
lastname, 3 to phone, 4 to email), and a result set with further rows
produces the same Entity as the result set truncated to its first row. -/
theorem get_maps_first_row_positionally (id : Int) (r : Row) (rest : List Row) :
    get id (Except.ok (r :: rest)) =
      some (Except.ok ⟨r.col0, r.col1, r.col2, r.col3, r.col4⟩) ∧
    get id (Except.ok (r :: rest)) = get id (Except.ok [r]) := by
  constructor <;> simp [get]

/-- Helper: when no row of the table carries the id of `c`, the select
for that id on the table with `c` appended returns exactly the
projection of `c`. -/
theorem selectById_append_fresh (t : List Contact) (c : Contact)
    (h : t.any (fun x => x.id == c.id) = false) :
    selectById (t ++ [c]) c.id =
      [⟨c.id, c.firstname, c.lastname, c.phone, c.email⟩] := by
  have hf : t.filter (fun x => x.id == c.id) = [] := by
    rw [List.filter_eq_nil_iff]
    intro a ha
    simp only [List.any_eq_false] at h
    exact h a ha
  simp [selectById, List.filter_append, hf]

/-- C2: for every Entity whose id is not already present in the store,
`save` succeeds (with affected-row count 1), and a subsequent `get` on
that id returns an Entity equal to it in all five fields. -/
theorem save_then_get_roundtrip (t : List Contact) (c : Contact)
    (h : t.any (fun x => x.id == c.id) = false) :
    (saveDb t c).2 = some (Except.ok 1) ∧
    getDb (saveDb t c).1 c.id = some (Except.ok c) := by
  have hins : insertContact t c = Except.ok (t ++ [c], 1) := by
    simp [insertContact, h]
  refine ⟨?_, ?_⟩
  · simp [saveDb, hins, save]
  · simp [saveDb, hins, getDb, selectById_append_fresh t c h, get]

/-- Witness for C2: scenario B, saving contact 13 into the empty table
then reading it back. -/
theorem save_then_get_roundtrip_witness :
    (saveDb [] ⟨13, "first", "second", "0123456789", "e@mail.com"⟩).2 =
      some (Except.ok 1) ∧
    getDb (saveDb [] ⟨13, "first", "second", "0123456789", "e@mail.com"⟩).1 13 =
      some (Except.ok ⟨13, "first", "second", "0123456789", "e@mail.com"⟩) :=
  save_then_get_roundtrip [] ⟨13, "first", "second", "0123456789", "e@mail.com"⟩ rfl

/-- C4: for every Entity whose id already exists in the store, `save`
fails with the `Db` (DriverError) variant carrying the store's
constraint violation unchanged, and the table is left unchanged: no
upsert, no silent overwrite. -/
theorem save_existing_id_driver_error (t : List Contact) (c : Contact)
    (h : t.any (fun x => x.id == c.id) = true) :
    (saveDb t c).2 = some (Except.error (Error.Db
      ⟨"duplicate key value violates unique constraint contact_pkey"⟩)) ∧
    (saveDb t c).1 = t := by
  constructor <;> simp [saveDb, insertContact, h, save, errorFromPgError]

/-- Witness for C4: scenario C, saving contact 13 a second time. -/
theorem save_existing_id_driver_error_witness :
    (saveDb [⟨13, "first", "second", "0123456789", "e@mail.com"⟩]
        ⟨13, "first", "second", "0123456789", "e@mail.com"⟩).2 =
      some (Except.error (Error.Db
        ⟨"duplicate key value violates unique constraint contact_pkey"⟩)) ∧
    (saveDb [⟨13, "first", "second", "0123456789", "e@mail.com"⟩]
        ⟨13, "first", "second", "0123456789", "e@mail.com"⟩).1 =
      [⟨13, "first", "second", "0123456789", "e@mail.com"⟩] :=
  save_existing_id_driver_error
    [⟨13, "first", "second", "0123456789", "e@mail.com"⟩]
    ⟨13, "first", "second", "0123456789", "e@mail.com"⟩ rfl

/-- C5: a successful `save` returns exactly the affected-row count the
store reports, and for a single successful insert that count is
exactly 1. -/
theorem save_returns_store_count :
    (∀ (c : Contact) (n : Nat), save c (Except.ok n) = some (Except.ok n)) ∧
    (∀ (t : List Contact) (c : Contact),
      t.any (fun x => x.id == c.id) = false →
      (saveDb t c).2 = some (Except.ok 1)) := by
  refine ⟨fun c n => rfl, fun t c h => ?_⟩
  simp [saveDb, insertContact, h, save]

/-- Witness for C5: a fresh insert into the empty table reports
exactly 1 affected row. -/
theorem save_returns_store_count_witness :
    (saveDb [] ⟨1, "a", "b", "c", "d"⟩).2 = some (Except.ok 1) :=
  save_returns_store_count.2 [] ⟨1, "a", "b", "c", "d"⟩ rfl

/-- C6: when connection establishment fails, `new` aborts the process
(modelled as `none`) rather than returning an error value, and never
yields a repository handle from the failed attempt. -/
theorem new_aborts_on_connect_failure (e : PgError) :
    PgsqlRepository.new (Except.error e) = none ∧
    ∀ repo : PgsqlRepository,
      PgsqlRepository.new (Except.error e) ≠ some repo := by
  exact ⟨rfl, fun repo hcontra => Option.noConfusion hcontra⟩

/-- Witness for C6 at a concrete connection error. -/
theorem new_aborts_on_connect_failure_witness :
    PgsqlRepository.new (Except.error ⟨"connection refused"⟩) = none :=
  (new_aborts_on_connect_failure ⟨"connection refused"⟩).1

/-- C7: for every input and every driver response, `get` and `save`
return a result value (`some`), never an abort (`none`): no panic is
reachable in either operation. -/
theorem get_save_never_abort (id : Int) (qr : Except PgError (List Row))
    (c : Contact) (er : Except PgError Nat) :
    (get id qr).isSome = true ∧ (save c er).isSome = true := by
  refine ⟨?_, ?_⟩
  · cases qr with
    | error e => rfl
    | ok rows =>
      cases rows with
      | nil => rfl
      | cons r rest => simp [get]
  · cases er with
    | error e => rfl
    | ok n => rfl

/-- C8: every driver failure is wrapped verbatim into the `Db`
(DriverError) variant — by the `From` conversion and by both operations
on a failing driver response — and the two error kinds are structurally
distinct variants. -/
theorem driver_errors_wrapped_verbatim :
    (∀ e : PgError, errorFromPgError e = Error.Db e) ∧
    (∀ (id : Int) (e : PgError),
      get id (Except.error e) = some (Except.error (Error.Db e))) ∧
    (∀ (c : Contact) (e : PgError),
      save c (Except.error e) = some (Except.error (Error.Db e))) ∧
    (∀ (e : PgError) (s : String), Error.Db e ≠ Error.Intern s) := by
  exact ⟨fun e => rfl, fun id e => rfl, fun c e => rfl,
    fun e s hcontra => Error.noConfusion hcontra⟩

/-- Witness for C8: the two variants are distinguishable even when they
carry the same message text. -/
theorem driver_errors_wrapped_verbatim_witness :
    Error.Db ⟨"net"⟩ ≠ Error.Intern "net" :=
  driver_errors_wrapped_verbatim.2.2.2 ⟨"net"⟩ "net"

/-- C9: every error returned by `save` is the `Db` (DriverError)
variant; `save` never produces the internal string-carrying variant. -/
theorem save_error_always_db (c : Contact) (er : Except PgError Nat)
    (x : Error) (h : save c er = some (Except.error x)) :
    ∃ e : PgError, x = Error.Db e := by
  cases er with
  | error e =>
    simp [save, errorFromPgError] at h
    exact ⟨e, h.symm⟩
  | ok n => simp [save] at h

/-- Witness for C9 at a concrete driver failure. -/
theorem save_error_always_db_witness :
    ∃ e : PgError, Error.Db ⟨"boom"⟩ = Error.Db e :=
  save_error_always_db ⟨1, "a", "b", "c", "d"⟩ (Except.error ⟨"boom"⟩)
    (Error.Db ⟨"boom"⟩) rfl

/-- C10: the first row of the result set is read only on the branch
where the result set's length is nonzero, so the index 0 is in bounds
there and `get` returns the mapping of that first row. -/
theorem get_first_index_in_bounds (id : Int) (rows : List Row)
    (h : 0 < rows.length) :
    rows[0]?.isSome = true ∧
    get id (Except.ok rows) = some (Except.ok
      ⟨(rows.get ⟨0, h⟩).col0, (rows.get ⟨0, h⟩).col1,
       (rows.get ⟨0, h⟩).col2, (rows.get ⟨0, h⟩).col3,
       (rows.get ⟨0, h⟩).col4⟩) := by
  cases rows with
  | nil => exact absurd h (by simp)
  | cons r rest => exact ⟨by simp, by simp [get]⟩

/-- Witness for C10 on a singleton result set. -/
theorem get_first_index_in_bounds_witness :
    ([(⟨7, "a", "b", "c", "d"⟩ : Row)] : List Row)[0]?.isSome = true ∧
    get 7 (Except.ok [(⟨7, "a", "b", "c", "d"⟩ : Row)]) =
      some (Except.ok ⟨7, "a", "b", "c", "d"⟩) :=
  get_first_index_in_bounds 7 [⟨7, "a", "b", "c", "d"⟩] (by decide)

end ContactRepo
